import Mathlib

/-!
Verification of the Work-Eye-Tracker capture-persist-sync pipeline.

Shallow embedding of the three core modules:
  * `src/core/data_manager.py`  (Durable Store + Sync Engine)
  * `src/core/eye_tracker.py`   (behavioral Sampler / Session Aggregator)
  * `src/core/system_monitor.py` (host-telemetry Sampler)

Timestamps (`datetime.now()` values) are modelled as rationals counting
seconds; SQLite rows become Lean structures, tables become lists, and the
AUTOINCREMENT primary key is modelled as `length + 1` (rows are never
deleted).  Each Python method that mutates state becomes a pure function
from the old state (plus the values the method reads from the environment:
the current time, the delivery outcome, the metric read results) to the
new state.
-/

namespace WorkEyeTracker

/-! ## Durable Store: table rows (data_manager.py, `_init_database`) -/

/-- A row of the `eye_sessions` table. -/
structure EyeSession where
  id : Nat
  user_id : String
  session_start : ℚ
  session_end : Option ℚ
  total_blinks : Nat
  blinks_per_minute : ℚ
  eye_strain_level : String
  synced : Bool
deriving DecidableEq

/-- A row of the `system_metrics` table.  `power_connected` is stored as
`1 if system_data.get('power_connected', False) else 0`, hence a `Bool`
here; `battery_percent` is stored as-is and may be NULL. -/
structure SystemMetric where
  id : Nat
  user_id : String
  timestamp : ℚ
  cpu_percent : ℚ
  memory_percent : ℚ
  memory_used_mb : ℚ
  disk_usage_percent : ℚ
  network_available : Bool
  battery_percent : Option ℚ
  power_connected : Bool
  synced : Bool
deriving DecidableEq

/-- A row of the `blink_events` table. -/
structure BlinkEvent where
  id : Nat
  user_id : String
  session_id : Option Nat
  timestamp : ℚ
  synced : Bool
deriving DecidableEq

/-- A row of the append-only `sync_log` table. -/
structure SyncLogEntry where
  id : Nat
  sync_time : ℚ
  records_synced : Nat
  success : Bool
  error_message : Option String
deriving DecidableEq

/-- The SQLite database: four tables. -/
structure DB where
  eye_sessions : List EyeSession
  system_metrics : List SystemMetric
  blink_events : List BlinkEvent
  sync_log : List SyncLogEntry
deriving DecidableEq

/-- A freshly initialised database (`_init_database` creates empty tables). -/
def DB.empty : DB := ⟨[], [], [], []⟩

/-! ## Durable Store: operations (data_manager.py) -/

/-- The slice of the telemetry snapshot that `save_session_data` reads out
of `system_data` and stores into `system_metrics`. -/
structure SystemData where
  cpu_percent : ℚ
  memory_percent : ℚ
  memory_used_mb : ℚ
  disk_usage_percent : ℚ
  network_available : Bool
  battery_percent : Option ℚ
  power_connected : Bool
deriving DecidableEq

/-- `save_session_data`: inserts one `system_metrics` row with
`synced` defaulting to 0. -/
def saveSessionData (db : DB) (user_id : String) (now : ℚ) (sd : SystemData) : DB :=
  { db with system_metrics := db.system_metrics ++
      [{ id := db.system_metrics.length + 1
         user_id := user_id
         timestamp := now
         cpu_percent := sd.cpu_percent
         memory_percent := sd.memory_percent
         memory_used_mb := sd.memory_used_mb
         disk_usage_percent := sd.disk_usage_percent
         network_available := sd.network_available
         battery_percent := sd.battery_percent
         power_connected := sd.power_connected
         synced := false }] }

/-- `save_blink_event`: inserts one `blink_events` row with `synced`
defaulting to 0. -/
def saveBlinkEvent (db : DB) (user_id : String) (session_id : Option Nat) (now : ℚ) : DB :=
  { db with blink_events := db.blink_events ++
      [{ id := db.blink_events.length + 1
         user_id := user_id
         session_id := session_id
         timestamp := now
         synced := false }] }

/-- `start_eye_session`: inserts one `eye_sessions` row (column defaults:
`total_blinks = 0`, `blinks_per_minute = 0.0`, `eye_strain_level = normal`,
`synced = 0`) and returns `cursor.lastrowid`. -/
def startEyeSession (db : DB) (user_id : String) (now : ℚ) : DB × Nat :=
  let sid := db.eye_sessions.length + 1
  ({ db with eye_sessions := db.eye_sessions ++
      [{ id := sid
         user_id := user_id
         session_start := now
         session_end := none
         total_blinks := 0
         blinks_per_minute := 0
         eye_strain_level := "normal"
         synced := false }] }, sid)

/-- The strain-level classification embedded in `end_eye_session`:
`< 10 → high`, `< 15 → moderate`, otherwise `normal`. -/
def strainLevel (blinks_per_minute : ℚ) : String :=
  if blinks_per_minute < 10 then "high"
  else if blinks_per_minute < 15 then "moderate"
  else "normal"

/-- `end_eye_session`: `UPDATE eye_sessions SET session_end, total_blinks,
blinks_per_minute, eye_strain_level WHERE id = session_id`. -/
def endEyeSession (db : DB) (session_id : Nat) (total_blinks : Nat)
    (blinks_per_minute : ℚ) (now : ℚ) : DB :=
  { db with eye_sessions := db.eye_sessions.map (fun r =>
      if r.id = session_id then
        { r with session_end := some now
                 total_blinks := total_blinks
                 blinks_per_minute := blinks_per_minute
                 eye_strain_level := strainLevel blinks_per_minute }
      else r) }

/-- `_get_unsynced_count`: `SELECT COUNT(*) ... WHERE synced = 0` on the
three mutable tables, summed. -/
def getUnsyncedCount (db : DB) : Nat :=
  (db.system_metrics.countP (fun r => !r.synced))
  + (db.eye_sessions.countP (fun r => !r.synced))
  + (db.blink_events.countP (fun r => !r.synced))

/-- `_mark_records_as_synced`: `UPDATE ... SET synced = 1 WHERE synced = 0`
on each of the three mutable tables (already-synced rows are not touched
by the WHERE clause). -/
def markRecordsAsSynced (db : DB) : DB :=
  { db with
    system_metrics := db.system_metrics.map (fun r =>
      if !r.synced then { r with synced := true } else r)
    eye_sessions := db.eye_sessions.map (fun r =>
      if !r.synced then { r with synced := true } else r)
    blink_events := db.blink_events.map (fun r =>
      if !r.synced then { r with synced := true } else r) }

/-- `_log_sync_result`: appends one `sync_log` row. -/
def logSyncResult (db : DB) (now : ℚ) (records_synced : Nat) (success : Bool)
    (error_message : Option String) : DB :=
  { db with sync_log := db.sync_log ++
      [{ id := db.sync_log.length + 1
         sync_time := now
         records_synced := records_synced
         success := success
         error_message := error_message }] }

/-! ## Sync Engine (data_manager.py, `sync_data`) -/

/-- The mutable fields of `DataManager` relevant to syncing. -/
structure DataManagerState where
  db : DB
  is_syncing : Bool
  last_sync_time : Option ℚ
  pending_sync_count : Nat
deriving DecidableEq

/-- The error message `sync_data` logs when `_simulate_cloud_sync`
reports failure. -/
def simulatedFailureMsg : String := "Simulated failure"

/-- Everything one call to `sync_data` produces: the new manager state,
the `sync_status_changed` emissions in order, the `sync_completed`
emission (if any), and how many delivery attempts
(`_simulate_cloud_sync` calls) were made. -/
structure SyncOutcome where
  state : DataManagerState
  statuses : List String
  completed : Option Bool
  deliveryAttempts : Nat
deriving DecidableEq

/-- `sync_data`, as one atomic step.  The method body runs with
`is_syncing = True` and the `finally` block resets it to `False`, so the
post-state always has `is_syncing = false` unless the call was dropped by
the guard.  `deliverySucceeds` is the outcome of the
`_simulate_cloud_sync` round-trip (a coin flip in the source). -/
def syncData (st : DataManagerState) (deliverySucceeds : Bool) (now : ℚ) : SyncOutcome :=
  if st.is_syncing then
    { state := st, statuses := [], completed := none, deliveryAttempts := 0 }
  else
    let unsynced_count := getUnsyncedCount st.db
    if unsynced_count = 0 then
      { state := { st with is_syncing := false }
        statuses := ["Syncing...", "Up to date"]
        completed := some true
        deliveryAttempts := 0 }
    else if deliverySucceeds then
      { state := { db := logSyncResult (markRecordsAsSynced st.db) now unsynced_count true none
                   is_syncing := false
                   last_sync_time := some now
                   pending_sync_count := 0 }
        statuses := ["Syncing...", "Sync complete"]
        completed := some true
        deliveryAttempts := 1 }
    else
      { state := { st with
                   db := logSyncResult st.db now unsynced_count false (some simulatedFailureMsg)
                   is_syncing := false }
        statuses := ["Syncing...", "Sync failed"]
        completed := some false
        deliveryAttempts := 1 }

/-- One append-only insert into the Durable Store: the three insert
operations of `data_manager.py` with their payloads. -/
inductive InsertOp where
  | metric (user_id : String) (now : ℚ) (sd : SystemData)
  | blink (user_id : String) (session_id : Option Nat) (now : ℚ)
  | session (user_id : String) (now : ℚ)
deriving DecidableEq

/-- Apply one insert to the database. -/
def applyInsert (db : DB) (op : InsertOp) : DB :=
  match op with
  | .metric u t sd => saveSessionData db u t sd
  | .blink u sid t => saveBlinkEvent db u sid t
  | .session u t => (startEyeSession db u t).1

/-- Apply a list of inserts left to right. -/
def applyInserts (db : DB) (ops : List InsertOp) : DB :=
  ops.foldl applyInsert db

/-! ## Behavioral Sampler (eye_tracker.py) -/

/-- The mutable fields of `EyeTracker` relevant to blink aggregation.
Blink timestamps are seconds. -/
structure EyeTrackerState where
  is_running : Bool
  camera_available : Bool
  simulation_mode : Bool
  total_blinks : Nat
  session_start_time : Option ℚ
  last_blink_time : Option ℚ
  blink_history : List ℚ
deriving DecidableEq

/-- The state set up by `__init__`. -/
def EyeTrackerState.init : EyeTrackerState :=
  { is_running := false
    camera_available := false
    simulation_mode := false
    total_blinks := 0
    session_start_time := none
    last_blink_time := none
    blink_history := [] }

/-- `EyeTracker.start()`: a no-op when already running; otherwise picks
live or simulated mode from camera availability and resets the tracking
data (`total_blinks = 0`, `session_start_time = now`,
`blink_history = []`). -/
def startTracker (st : EyeTrackerState) (now : ℚ) (cameraOk : Bool) : EyeTrackerState :=
  if st.is_running then st
  else
    { st with
      camera_available := cameraOk
      simulation_mode := !cameraOk
      total_blinks := 0
      session_start_time := some now
      blink_history := []
      is_running := true }

/-- `_record_blink`: increment `total_blinks`, set `last_blink_time`,
append `now` to `blink_history`, then keep only entries with
`t > now - 5 minutes` (300 seconds). -/
def recordBlink (st : EyeTrackerState) (now : ℚ) : EyeTrackerState :=
  { st with
    total_blinks := st.total_blinks + 1
    last_blink_time := some now
    blink_history := (st.blink_history ++ [now]).filter (fun t => now - 300 < t) }

/-- Record a sequence of blinks in order. -/
def processBlinks (st : EyeTrackerState) (ts : List ℚ) : EyeTrackerState :=
  ts.foldl recordBlink st

/-- Two-digit zero-padded decimal, as in Python's `%02d` fields of
`str(timedelta)`. -/
def pad2 (n : Nat) : String :=
  (if n < 10 then "0" else "") ++ toString n

/-- Model of `str(session_duration).split('.')[0]` for a
`timedelta` of `t` seconds: drop the fractional part (Python stores a
normalised `days + seconds` with `0 ≤ seconds < 86400`, so the floor
division here matches), then render `[D day(s), ]H:MM:SS`. -/
def formatTimedelta (t : ℚ) : String :=
  let total : Int := Int.floor t
  let days : Int := Int.fdiv total 86400
  let rem : Nat := (Int.fmod total 86400).toNat
  let h := rem / 3600
  let m := (rem % 3600) / 60
  let s := rem % 60
  let hms := toString h ++ ":" ++ pad2 m ++ ":" ++ pad2 s
  if days = 0 then hms
  else toString days ++ (if days = 1 then " day, " else " days, ") ++ hms

/-- The dictionary returned by `EyeTracker.get_current_data()`. -/
structure TrackerSnapshot where
  total_blinks : Nat
  blinks_per_minute : ℚ
  session_duration : String
  last_blink : Option ℚ
  is_tracking : Bool
  camera_available : Bool
  simulation_mode : Bool
deriving DecidableEq

/-- `get_current_data()`: when a session start time is set, the duration
string is the formatted `now - start` and the rate is
`total_blinks / max(1, elapsed_minutes)`; otherwise the literals
`"00:00:00"` and `0`. -/
def getCurrentData (st : EyeTrackerState) (now : ℚ) : TrackerSnapshot :=
  let duration_str : String :=
    match st.session_start_time with
    | some start => formatTimedelta (now - start)
    | none => "00:00:00"
  let blinks_per_minute : ℚ :=
    match st.session_start_time with
    | some start => (st.total_blinks : ℚ) / max 1 ((now - start) / 60)
    | none => 0
  { total_blinks := st.total_blinks
    blinks_per_minute := blinks_per_minute
    session_duration := duration_str
    last_blink := st.last_blink_time
    is_tracking := st.is_running
    camera_available := st.camera_available
    simulation_mode := st.simulation_mode }

/-! ## Host-Telemetry Sampler (system_monitor.py) -/

/-- The `current_metrics` dictionary (without `boot_time`, which no claim
touches). -/
structure SystemMetrics where
  cpu_percent : ℚ
  memory_percent : ℚ
  memory_used_mb : ℚ
  memory_total_mb : ℚ
  disk_usage_percent : ℚ
  network_available : Bool
  battery_percent : Option ℚ
  power_connected : Option Bool
  process_count : Nat
deriving DecidableEq

/-- The initial `current_metrics` values from `__init__`. -/
def SystemMetrics.init : SystemMetrics :=
  { cpu_percent := 0
    memory_percent := 0
    memory_used_mb := 0
    memory_total_mb := 0
    disk_usage_percent := 0
    network_available := false
    battery_percent := none
    power_connected := none
    process_count := 0 }

/-- Result of `psutil.virtual_memory()` (bytes for the sizes, as in the
source, which divides by 1024*1024). -/
structure MemoryReading where
  percent : ℚ
  used_bytes : ℚ
  total_bytes : ℚ
deriving DecidableEq

/-- Result of `psutil.disk_usage('/')`. -/
structure DiskReading where
  used : ℚ
  total : ℚ
deriving DecidableEq

/-- Outcome of the bounded-timeout socket probe in
`_update_network_status`: the source distinguishes `socket.error` (which
covers the 3-second timeout) from any other exception, but handles both
by setting `network_available = False`. -/
inductive NetworkProbe where
  | connected
  | socketError (msg : String)
  | otherError (msg : String)
deriving DecidableEq

/-- Result of `psutil.sensors_battery()` when it returns an object. -/
structure BatteryReading where
  percent : ℚ
  power_plugged : Bool
deriving DecidableEq

/-- Outcome of the battery probe in `_update_battery_metrics`:
`unsupported` is the `hasattr(psutil, 'sensors_battery') == False` path,
`reading none` is `sensors_battery()` returning `None` (desktop / no
battery), and `failure` is an exception caught by the handler. -/
inductive BatteryProbe where
  | unsupported
  | reading (b : Option BatteryReading)
  | failure (msg : String)
deriving DecidableEq

/-- `_update_cpu_metrics`: on success store the reading, on exception
leave the metrics unchanged (the handler only logs). -/
def updateCpuMetrics (m : SystemMetrics) (r : Except String ℚ) : SystemMetrics :=
  match r with
  | .ok v => { m with cpu_percent := v }
  | .error _ => m

/-- `_update_memory_metrics`: on success store percent and MB figures, on
exception leave the metrics unchanged. -/
def updateMemoryMetrics (m : SystemMetrics) (r : Except String MemoryReading) : SystemMetrics :=
  match r with
  | .ok mem =>
      { m with
        memory_percent := mem.percent
        memory_used_mb := mem.used_bytes / (1024 * 1024)
        memory_total_mb := mem.total_bytes / (1024 * 1024) }
  | .error _ => m

/-- `_update_disk_metrics`: on success store `used / total * 100`, on
exception (or a psutil build without `disk_usage`, folded into the error
case) leave the metrics unchanged. -/
def updateDiskMetrics (m : SystemMetrics) (r : Except String DiskReading) : SystemMetrics :=
  match r with
  | .ok d => { m with disk_usage_percent := d.used / d.total * 100 }
  | .error _ => m

/-- `_update_network_status`: a successful connect sets
`network_available = True`; a `socket.error` or any other exception sets
it to `False`.  The function is total: no probe outcome propagates as an
error. -/
def updateNetworkStatus (m : SystemMetrics) (p : NetworkProbe) : SystemMetrics :=
  match p with
  | .connected => { m with network_available := true }
  | .socketError _ => { m with network_available := false }
  | .otherError _ => { m with network_available := false }

/-- `_update_battery_metrics`: with a battery object, store its percent
and plugged state; with `sensors_battery()` returning `None`
(desktop / no battery), store `battery_percent = None` and
`power_connected = True`; otherwise leave the metrics unchanged. -/
def updateBatteryMetrics (m : SystemMetrics) (p : BatteryProbe) : SystemMetrics :=
  match p with
  | .unsupported => m
  | .reading (some b) =>
      { m with battery_percent := some b.percent, power_connected := some b.power_plugged }
  | .reading none =>
      { m with battery_percent := none, power_connected := some true }
  | .failure _ => m

/-- `_update_process_count`: on success store `len(psutil.pids())`, on
exception leave the metrics unchanged. -/
def updateProcessCount (m : SystemMetrics) (r : Except String Nat) : SystemMetrics :=
  match r with
  | .ok n => { m with process_count := n }
  | .error _ => m

/-- The six independent read outcomes consumed by one iteration of
`_monitoring_loop`. -/
structure TickReads where
  cpu : Except String ℚ
  memory : Except String MemoryReading
  disk : Except String DiskReading
  network : NetworkProbe
  battery : BatteryProbe
  procs : Except String Nat

/-- One iteration of `_monitoring_loop`: the six updaters run in source
order, each guarded by its own exception handler. -/
def monitoringTick (m : SystemMetrics) (r : TickReads) : SystemMetrics :=
  updateProcessCount
    (updateBatteryMetrics
      (updateNetworkStatus
        (updateDiskMetrics
          (updateMemoryMetrics
            (updateCpuMetrics m r.cpu)
            r.memory)
          r.disk)
        r.network)
      r.battery)
    r.procs

/-! ## Theorems -/

/-- Each insert raises the unsynced count by exactly one: the new row of
any of the three tables carries `synced = false`. -/
lemma getUnsyncedCount_applyInsert (db : DB) (op : InsertOp) :
    getUnsyncedCount (applyInsert db op) = getUnsyncedCount db + 1 := by
  cases op <;>
    simp [applyInsert, saveSessionData, saveBlinkEvent, startEyeSession,
      getUnsyncedCount, List.countP_append, List.countP_cons] <;>
    omega

/-- A list of inserts raises the unsynced count by its length. -/
lemma getUnsyncedCount_applyInserts (db : DB) (ops : List InsertOp) :
    getUnsyncedCount (applyInserts db ops) = getUnsyncedCount db + ops.length := by
  induction ops generalizing db with
  | nil => simp [applyInserts]
  | cons op ops ih =>
      have : applyInserts db (op :: ops) = applyInserts (applyInsert db op) ops := rfl
      rw [this, ih, getUnsyncedCount_applyInsert]
      simp
      omega

/-- After `_mark_records_as_synced` no row of the three mutable tables is
unsynced. -/
lemma getUnsyncedCount_mark (db : DB) : getUnsyncedCount (markRecordsAsSynced db) = 0 := by
  simp only [getUnsyncedCount, markRecordsAsSynced, List.countP_map]
  rw [List.countP_eq_zero.mpr, List.countP_eq_zero.mpr, List.countP_eq_zero.mpr] <;>
    · intro r _
      by_cases h : r.synced <;> simp [h, Function.comp]

/-- C1: `count_unsynced()` sums the unsynced rows of the three mutable
tables: after N inserts into a fresh store and zero syncs it equals N,
after one successful `mark_all_synced()` it equals 0, and one subsequent
insert makes it 1 again (already-synced rows are not re-marked, so the
count after the extra insert is exactly the one new row). -/
theorem count_unsynced_spec (db : DB) (ops : List InsertOp) (op : InsertOp) :
    getUnsyncedCount (applyInserts DB.empty ops) = ops.length
    ∧ getUnsyncedCount (markRecordsAsSynced db) = 0
    ∧ getUnsyncedCount (applyInsert (markRecordsAsSynced db) op) = 1 := by
  refine ⟨?_, getUnsyncedCount_mark db, ?_⟩
  · rw [getUnsyncedCount_applyInserts]
    simp [getUnsyncedCount, DB.empty]
  · rw [getUnsyncedCount_applyInsert, getUnsyncedCount_mark]

/-- C2: strain level is a pure function of blinks-per-minute as computed
at session close: `bpm < 10 → "high"`, `10 ≤ bpm < 15 → "moderate"`,
`bpm ≥ 15 → "normal"`; in particular `bpm = 10` classifies as
`"moderate"` (not `"high"`) and `bpm = 15` as `"normal"` (not
`"moderate"`). -/
theorem strain_level_spec (bpm : ℚ) :
    (bpm < 10 → strainLevel bpm = "high")
    ∧ (10 ≤ bpm → bpm < 15 → strainLevel bpm = "moderate")
    ∧ (15 ≤ bpm → strainLevel bpm = "normal")
    ∧ strainLevel 10 = "moderate"
    ∧ strainLevel 15 = "normal" := by
  refine ⟨?_, ?_, ?_, ?_, ?_⟩
  · intro h
    rw [strainLevel, if_pos h]
  · intro h1 h2
    rw [strainLevel, if_neg (by linarith), if_pos h2]
  · intro h
    rw [strainLevel, if_neg (by linarith), if_neg (by linarith)]
  · norm_num [strainLevel]
  · norm_num [strainLevel]

/-- Witness for C2 at the spec's sample rates 9, 12 and 20. -/
theorem strain_level_spec_witness :
    strainLevel 9 = "high" ∧ strainLevel 12 = "moderate" ∧ strainLevel 20 = "normal" :=
  ⟨(strain_level_spec 9).1 (by norm_num),
   (strain_level_spec 12).2.1 (by norm_num) (by norm_num),
   (strain_level_spec 20).2.2.1 (by norm_num)⟩

/-- Setting `is_syncing := false` on a state that already has it false is
the identity. -/
lemma set_is_syncing_false_eq (st : DataManagerState) (h : st.is_syncing = false) :
    { st with is_syncing := false } = st := by
  cases st
  simp_all

/-- C3: the single boolean guard of `sync_data` drops a trigger that
arrives while a sync is in progress — the state (store and sync log
included) is returned untouched, nothing is emitted and no delivery is
attempted — and any completed call appends at most one sync-log row. -/
theorem sync_guard_spec (st : DataManagerState) (ok : Bool) (now : ℚ) :
    (st.is_syncing = true →
      syncData st ok now
        = { state := st, statuses := [], completed := none, deliveryAttempts := 0 })
    ∧ (syncData st ok now).state.db.sync_log.length ≤ st.db.sync_log.length + 1 := by
  constructor
  · intro h
    simp [syncData, h]
  · by_cases h1 : st.is_syncing
    · simp [syncData, h1]
    · by_cases h2 : getUnsyncedCount st.db = 0
      · simp [syncData, h1, h2]
      · cases ok <;>
          simp [syncData, h1, h2, logSyncResult, markRecordsAsSynced]

/-- Witness for C3: a concrete trigger arriving with `is_syncing = true`
is dropped whole. -/
theorem sync_guard_spec_witness :
    syncData ⟨DB.empty, true, none, 0⟩ true 0
      = { state := ⟨DB.empty, true, none, 0⟩, statuses := [], completed := none,
          deliveryAttempts := 0 } :=
  (sync_guard_spec ⟨DB.empty, true, none, 0⟩ true 0).1 rfl

/-- C4: when delivery fails, no sync flag is flipped (all three mutable
tables are byte-for-byte unchanged), exactly one sync-log row is appended
carrying the pre-attempt unsynced count, `success = false` and the
failure reason, the failure status is emitted, and only one delivery
attempt is made (no immediate retry). -/
theorem sync_failure_spec (st : DataManagerState) (now : ℚ)
    (hidle : st.is_syncing = false) (hn : getUnsyncedCount st.db ≠ 0) :
    (syncData st false now).state.db.system_metrics = st.db.system_metrics
    ∧ (syncData st false now).state.db.eye_sessions = st.db.eye_sessions
    ∧ (syncData st false now).state.db.blink_events = st.db.blink_events
    ∧ (syncData st false now).state.db.sync_log
        = st.db.sync_log ++
          [{ id := st.db.sync_log.length + 1, sync_time := now,
             records_synced := getUnsyncedCount st.db, success := false,
             error_message := some simulatedFailureMsg }]
    ∧ (syncData st false now).statuses = ["Syncing...", "Sync failed"]
    ∧ (syncData st false now).completed = some false
    ∧ (syncData st false now).deliveryAttempts = 1 := by
  simp [syncData, hidle, hn, logSyncResult]

/-- Witness for C4: a store holding one unsynced blink event, delivery
failing. -/
theorem sync_failure_spec_witness :
    (syncData ⟨saveBlinkEvent DB.empty "u" none 0, false, none, 0⟩ false 1).statuses
        = ["Syncing...", "Sync failed"]
    ∧ (syncData ⟨saveBlinkEvent DB.empty "u" none 0, false, none, 0⟩ false 1).deliveryAttempts
        = 1 := by
  have h := sync_failure_spec ⟨saveBlinkEvent DB.empty "u" none 0, false, none, 0⟩ 1
    rfl (by decide)
  exact ⟨h.2.2.2.2.1, h.2.2.2.2.2.2⟩

/-- Iterated `sync_data` triggers: the state after `n` further triggers
(each with the same delivery outcome and clock). -/
def iterSyncState (st : DataManagerState) (ok : Bool) (now : ℚ) : Nat → DataManagerState
  | 0 => st
  | n + 1 => (syncData (iterSyncState st ok now n) ok now).state

/-- C5: a sync trigger with nothing unsynced is a no-op — the short
circuit emits "Up to date", reports success, appends no sync-log row and
leaves the whole manager state (store included) unchanged — and repeating
such triggers any number of times produces the same outcome each time. -/
theorem sync_noop_idempotent (st : DataManagerState) (ok : Bool) (now : ℚ)
    (hidle : st.is_syncing = false) (hz : getUnsyncedCount st.db = 0) :
    syncData st ok now
      = { state := st, statuses := ["Syncing...", "Up to date"],
          completed := some true, deliveryAttempts := 0 }
    ∧ ∀ n : Nat, syncData (iterSyncState st ok now n) ok now
      = { state := st, statuses := ["Syncing...", "Up to date"],
          completed := some true, deliveryAttempts := 0 } := by
  have base : syncData st ok now
      = { state := st, statuses := ["Syncing...", "Up to date"],
          completed := some true, deliveryAttempts := 0 } := by
    simp [syncData, hidle, hz, set_is_syncing_false_eq st hidle]
  have iter : ∀ n, iterSyncState st ok now n = st := by
    intro n
    induction n with
    | zero => rfl
    | succ n ih =>
        show (syncData (iterSyncState st ok now n) ok now).state = st
        rw [ih, base]
  exact ⟨base, fun n => by rw [iter n]; exact base⟩

/-- Witness for C5: a fresh empty store, triggered when idle. -/
theorem sync_noop_idempotent_witness :
    syncData ⟨DB.empty, false, none, 0⟩ true 0
      = { state := ⟨DB.empty, false, none, 0⟩, statuses := ["Syncing...", "Up to date"],
          completed := some true, deliveryAttempts := 0 } :=
  (sync_noop_idempotent ⟨DB.empty, false, none, 0⟩ true 0 rfl rfl).1

/-- C6: with a started session, the snapshot's blinks-per-minute equals
`total_blinks / max(1, elapsed_minutes)`; the divisor is strictly
positive (never a division by an elapsed time of zero), and for a fixed
elapsed time the rate is monotonically non-decreasing in
`total_blinks`. -/
theorem bpm_spec (st : EyeTrackerState) (now start : ℚ)
    (h : st.session_start_time = some start) :
    (getCurrentData st now).blinks_per_minute
        = (st.total_blinks : ℚ) / max 1 ((now - start) / 60)
    ∧ 0 < max 1 ((now - start) / 60)
    ∧ ∀ b₁ b₂ : Nat, b₁ ≤ b₂ →
        (getCurrentData { st with total_blinks := b₁ } now).blinks_per_minute
          ≤ (getCurrentData { st with total_blinks := b₂ } now).blinks_per_minute := by
  have hpos : (0 : ℚ) < max 1 ((now - start) / 60) :=
    lt_of_lt_of_le one_pos (le_max_left _ _)
  refine ⟨?_, hpos, ?_⟩
  · simp [getCurrentData, h]
  · intro b₁ b₂ hb
    simp only [getCurrentData, h]
    exact (div_le_div_iff_of_pos_right hpos).mpr (by exact_mod_cast hb)

/-- Witness for C6: six blinks over a two-minute session give
6 / max(1, 2) blinks per minute. -/
theorem bpm_spec_witness :
    (getCurrentData
        { EyeTrackerState.init with session_start_time := some 0, total_blinks := 6 }
        120).blinks_per_minute
      = ((6 : Nat) : ℚ) / max 1 ((120 - 0) / 60) :=
  (bpm_spec { EyeTrackerState.init with session_start_time := some 0, total_blinks := 6 }
    120 0 rfl).1

/-- C10: before `start()` was ever called (no session start time), the
snapshot is still well formed: the rate is the literal 0 and the duration
is the literal string `"00:00:00"`. -/
theorem untracked_snapshot_spec (st : EyeTrackerState) (now : ℚ)
    (h : st.session_start_time = none) :
    (getCurrentData st now).blinks_per_minute = 0
    ∧ (getCurrentData st now).session_duration = "00:00:00" := by
  simp [getCurrentData, h]

/-- Witness for C10 at the freshly constructed tracker. -/
theorem untracked_snapshot_spec_witness :
    (getCurrentData EyeTrackerState.init 7).blinks_per_minute = 0
    ∧ (getCurrentData EyeTrackerState.init 7).session_duration = "00:00:00" :=
  untracked_snapshot_spec EyeTrackerState.init 7 rfl

/-- `processBlinks` peels off the last blink. -/
lemma processBlinks_append (st : EyeTrackerState) (ts : List ℚ) (t : ℚ) :
    processBlinks st (ts ++ [t]) = recordBlink (processBlinks st ts) t := by
  simp [processBlinks, List.foldl_append]

/-- Core induction for the sliding window: recording a non-decreasing
sequence of blink timestamps adds its length to `total_blinks`, sets
`last_blink_time` to the last timestamp, and leaves in the history
exactly the entries newer than the last timestamp minus 5 minutes —
earlier prunes remove only entries the final prune would remove
anyway. -/
lemma processBlinks_spec (st : EyeTrackerState) (ts : List ℚ) (hne : ts ≠ [])
    (hchain : ts.Chain' (· ≤ ·)) :
    (processBlinks st ts).total_blinks = st.total_blinks + ts.length
    ∧ (processBlinks st ts).last_blink_time = some (ts.getLast hne)
    ∧ (processBlinks st ts).blink_history
        = (st.blink_history ++ ts).filter (fun x => ts.getLast hne - 300 < x) := by
  induction ts using List.reverseRecOn with
  | nil => exact absurd rfl hne
  | append_singleton l t ih =>
    have hlast : (l ++ [t]).getLast hne = t := by
      rw [List.getLast_append' l [t] (by simp)]
      rfl
    by_cases hl : l = []
    · subst hl
      refine ⟨by simp [processBlinks, recordBlink], ?_, ?_⟩
      · simp [processBlinks, recordBlink, hlast]
      · simp only [processBlinks, List.foldl_cons, List.foldl_nil, recordBlink, hlast,
          List.nil_append]
        rw [List.filter_append]
        simp
    · have hsplit := (List.chain'_append).mp hchain
      have hchain_l : l.Chain' (· ≤ ·) := hsplit.1
      have hle : l.getLast hl ≤ t :=
        hsplit.2.2 (l.getLast hl) (List.getLast?_eq_getLast_of_ne_nil hl ▸ rfl) t rfl
      obtain ⟨iht, ihl, ihh⟩ := ih hl hchain_l
      rw [processBlinks_append]
      refine ⟨?_, ?_, ?_⟩
      · simp only [recordBlink, iht, List.length_append, List.length_singleton]
        omega
      · simp [recordBlink, hlast]
      · simp only [recordBlink, hlast]
        rw [ihh, List.filter_append, List.filter_filter]
        have h2 : ∀ x ∈ st.blink_history ++ l,
            (decide (t - 300 < x) && decide (l.getLast hl - 300 < x))
              = decide (t - 300 < x) := by
          intro x _
          by_cases hx : t - 300 < x
          · have hx2 : l.getLast hl - 300 < x := by linarith
            simp [hx, hx2]
          · simp [hx]
        rw [List.filter_congr h2]
        conv_rhs => rw [← List.append_assoc, List.filter_append]

/-- C7: starting a session and recording N blinks with non-decreasing
timestamps yields `total_blinks = N`, `last_blink_time` equal to the
latest timestamp, and a sliding window holding exactly the timestamps
strictly newer than the last timestamp minus 5 minutes. -/
theorem blink_history_spec (st : EyeTrackerState) (now : ℚ) (cameraOk : Bool)
    (ts : List ℚ) (hrun : st.is_running = false) (hne : ts ≠ [])
    (hchain : ts.Chain' (· ≤ ·)) :
    (processBlinks (startTracker st now cameraOk) ts).total_blinks = ts.length
    ∧ (processBlinks (startTracker st now cameraOk) ts).last_blink_time
        = some (ts.getLast hne)
    ∧ (processBlinks (startTracker st now cameraOk) ts).blink_history
        = ts.filter (fun x => ts.getLast hne - 300 < x) := by
  obtain ⟨h1, h2, h3⟩ := processBlinks_spec (startTracker st now cameraOk) ts hne hchain
  refine ⟨?_, h2, ?_⟩
  · rw [h1]
    simp [startTracker, hrun]
  · rw [h3]
    simp [startTracker, hrun]

/-- Witness for C7: three blinks at seconds 0, 100 and 400; the
5-minute window at second 400 keeps only the last one. -/
theorem blink_history_spec_witness :
    (processBlinks (startTracker EyeTrackerState.init 0 false) [0, 100, 400]).total_blinks = 3
    ∧ (processBlinks (startTracker EyeTrackerState.init 0 false) [0, 100, 400]).last_blink_time
        = some 400
    ∧ (processBlinks (startTracker EyeTrackerState.init 0 false) [0, 100, 400]).blink_history
        = [400] := by
  have h := blink_history_spec EyeTrackerState.init 0 false [0, 100, 400] rfl
    (by simp) (by norm_num [List.chain'_cons, List.chain'_singleton])
  refine ⟨h.1, by simpa using h.2.1, ?_⟩
  rw [h.2.2]
  norm_num [List.filter, List.getLast]

/-- C8: on a monitoring tick whose network probe fails — whether with a
`socket.error` (timeouts included) or any other exception — the next
snapshot carries `network_available = false` (the updaters are total
functions, so no probe failure propagates as an error), and every other
metric field still equals what its own updater produces from its own
read, independent of the network failure. -/
theorem network_failure_spec (m : SystemMetrics) (r : TickReads)
    (h : r.network ≠ NetworkProbe.connected) :
    (monitoringTick m r).network_available = false
    ∧ (monitoringTick m r).cpu_percent = (updateCpuMetrics m r.cpu).cpu_percent
    ∧ (monitoringTick m r).memory_percent = (updateMemoryMetrics m r.memory).memory_percent
    ∧ (monitoringTick m r).memory_used_mb = (updateMemoryMetrics m r.memory).memory_used_mb
    ∧ (monitoringTick m r).memory_total_mb = (updateMemoryMetrics m r.memory).memory_total_mb
    ∧ (monitoringTick m r).disk_usage_percent
        = (updateDiskMetrics m r.disk).disk_usage_percent
    ∧ (monitoringTick m r).battery_percent = (updateBatteryMetrics m r.battery).battery_percent
    ∧ (monitoringTick m r).power_connected = (updateBatteryMetrics m r.battery).power_connected
    ∧ (monitoringTick m r).process_count = (updateProcessCount m r.procs).process_count := by
  obtain ⟨cpu, memory, disk, network, battery, procs⟩ := r
  rcases network with _ | e | e
  · exact absurd rfl h
  all_goals
    rcases cpu with e1 | v <;>
    rcases memory with e2 | mr <;>
    rcases disk with e3 | dr <;>
    rcases battery with _ | (_ | b) | e4 <;>
    rcases procs with e5 | n <;>
    exact ⟨rfl, rfl, rfl, rfl, rfl, rfl, rfl, rfl, rfl⟩

/-- Witness for C8: a probe timing out while every other read succeeds. -/
theorem network_failure_spec_witness :
    (monitoringTick SystemMetrics.init
      { cpu := Except.ok 50
        memory := Except.ok { percent := 40, used_bytes := 1048576, total_bytes := 2097152 }
        disk := Except.ok { used := 1, total := 2 }
        network := NetworkProbe.socketError "timed out"
        battery := BatteryProbe.reading none
        procs := Except.ok 100 }).network_available = false :=
  (network_failure_spec SystemMetrics.init _ (by simp)).1

/-- C9 counterexample: on a non-battery host (`sensors_battery()` returns
`None`), the code stores the concrete value `True` into
`power_connected`, so the power-connected state is not reported as
unavailable. -/
theorem battery_desktop_counterexample :
    (updateBatteryMetrics SystemMetrics.init (BatteryProbe.reading none)).power_connected
        = some true
    ∧ (updateBatteryMetrics SystemMetrics.init (BatteryProbe.reading none)).power_connected
        ≠ none := by
  exact ⟨rfl, by simp [updateBatteryMetrics]⟩

/-- C9 amended: on a non-battery host the battery percentage is reported
as unavailable (`None`), while the power-connected state is reported as
the concrete value `True` (the desktop is assumed plugged in), not as
unavailable. -/
theorem battery_desktop_spec (m : SystemMetrics) :
    (updateBatteryMetrics m (BatteryProbe.reading none)).battery_percent = none
    ∧ (updateBatteryMetrics m (BatteryProbe.reading none)).power_connected = some true :=
  ⟨rfl, rfl⟩

end WorkEyeTracker
